import Mathlib

/-!
Verification of the RAG agent service (`rag_agent/services/rag_agent_service.py`,
`rag_agent/config.py`) as a shallow embedding.

External collaborators (the retrieval tool's `search`, the LLM completion call and
the response validator) are modelled as function parameters of `processRequest`;
what matters for the specification is *how* they are invoked and how their results
are combined, which the embedding records explicitly (`RetrievalCall`,
`ProcessResult`). Python dicts over string keys are association lists with
dict-style insertion (`dictInsert` replaces in place), Python sets of strings are
insertion-ordered duplicate-free lists (`pySetAdd`), floats are rationals, and
Python truthiness of optional strings / dicts is made explicit (`truthyStr`,
`truthyDict`).
-/

namespace RagAgent

/-- Python truthiness of an optional string: `None` and `""` are falsy. -/
def truthyStr : Option String → Bool
  | none => false
  | some s => !(s == "")

/-- A Python `dict[str, str]`, as an association list.  A genuine dict has
duplicate-free keys; lemmas that need this take it as a hypothesis. -/
abbrev Dict := List (String × String)

/-- Python truthiness of an optional dict: `None` and `{}` are falsy. -/
def truthyDict : Option Dict → Bool
  | none => false
  | some d => !d.isEmpty

/-- `d[k]` lookup (first binding; the only one in a genuine dict). -/
def dictGet : Dict → String → Option String
  | [], _ => none
  | p :: d, k => if p.1 = k then some p.2 else dictGet d k

/-- `k in d`. -/
def dictHasKey : Dict → String → Bool
  | [], _ => false
  | p :: d, k => decide (p.1 = k) || dictHasKey d k

/-- Setting `d[k] = v`: replace in place if the key exists, else append —
exactly a CPython dict assignment's effect on the entry order. -/
def dictInsert (d : Dict) (k v : String) : Dict :=
  if dictHasKey d k then d.map (fun p => if p.1 = k then (p.1, v) else p)
  else d ++ [(k, v)]

/-- `d.update(e)`: insert `e`'s bindings into `d` in order, last write wins. -/
def dictUpdate (d e : Dict) : Dict :=
  e.foldl (fun acc p => dictInsert acc p.1 p.2) d

/-- Adding to a Python `set` of strings, modelled as an insertion-ordered
duplicate-free list. -/
def pySetAdd (s : List String) (x : String) : List String :=
  if x ∈ s then s else s ++ [x]

/-- Modelled from the spec: query classification enum of `AgentRequest`
(`rag_agent/models/agent_models.py` is not in the sources). -/
inductive QueryType where
  | GENERAL
  | CHAPTER_SPECIFIC
  | USER_CONTEXT
deriving DecidableEq, Repr

/-- Modelled from the spec: the immutable request record. -/
structure AgentRequest where
  query : String
  query_type : QueryType
  chapter_filter : Option String
  filters : Option Dict
  top_k : Nat
  user_context : Option String
  conversation_id : Option String
deriving DecidableEq, Repr

/-- A raw chunk record as returned by the retrieval collaborator's `search`
(spec section 4.4).  The retrieval timestamp is opaque to the pipeline and is
modelled as a number. -/
structure RawChunk where
  id : String
  content : String
  source_url : String
  chapter : Option String
  «section» : Option String
  similarity_score : ℚ
  confidence_score : ℚ
  retrieval_timestamp : Nat
  metadata : Dict
deriving DecidableEq, Repr

/-- Modelled from the spec: the `RetrievedChunk` entity built by
`process_request` from a raw record. -/
structure RetrievedChunk where
  id : String
  content : String
  source_url : String
  chapter : Option String
  «section» : Option String
  similarity_score : ℚ
  confidence_score : ℚ
  retrieval_timestamp : Nat
  metadata : Dict
deriving DecidableEq, Repr

/-- Modelled from the spec: the immutable response record. -/
structure AgentResponse where
  response : String
  query : String
  retrieved_chunks : List RetrievedChunk
  source_attribution : List String
  confidence_score : ℚ
  query_type : QueryType
  conversation_id : String
  has_sufficient_context : Bool
  hallucination_prevention_applied : Bool
deriving DecidableEq, Repr

/-- The verdict of `ResponseValidator.validate_agent_response`: a validity flag
plus issue descriptions (spec section 4.3). -/
structure ValidationResult where
  is_valid : Bool
  issues : List String
deriving DecidableEq, Repr

/-- Modelled from the spec: a conversation session
(`{id, creation time, history}`, history not populated by the pipeline). -/
structure ConversationSession where
  id : String
  created_at : Nat
  history : List String
deriving DecidableEq, Repr

/-- The in-memory session map `self.sessions` (a Python dict keyed by session
id, so keys are duplicate-free in any reachable state). -/
abbrev Sessions := List (String × ConversationSession)

/-- `session_id in self.sessions`. -/
def sessionsHasKey (s : Sessions) (sid : String) : Bool :=
  s.any (fun p => p.1 == sid)

/-- `self.sessions.get(session_id)`. -/
def sessionsGet : Sessions → String → Option ConversationSession
  | [], _ => none
  | p :: s, sid => if p.1 = sid then some p.2 else sessionsGet s sid

/-- `clear_conversation`: delete the entry if the id is present and report
whether a deletion happened (`del` of the unique binding, modelled as a filter). -/
def clear_conversation (s : Sessions) (sid : String) : Bool × Sessions :=
  if sessionsHasKey s sid then (true, s.filter (fun p => !(p.1 == sid))) else (false, s)

/-- The environment-derived configuration attributes that `Config.validate`
inspects (`rag_agent/config.py`); each is `os.getenv` of the variable of the
same name, `none` when unset. -/
structure Config where
  OPENROUTER_API_KEY : Option String
  QDRANT_URL : Option String
  QDRANT_API_KEY : Option String
  COHERE_API_KEY : Option String
deriving DecidableEq, Repr

/-- The `required_vars` list of `Config.validate`. -/
def Config.requiredVars : List String :=
  ["OPENROUTER_API_KEY", "QDRANT_URL", "QDRANT_API_KEY"]

/-- `getattr(cls, var)` for the variables `validate` looks up. -/
def Config.getVar (c : Config) : String → Option String
  | "OPENROUTER_API_KEY" => c.OPENROUTER_API_KEY
  | "QDRANT_URL" => c.QDRANT_URL
  | "QDRANT_API_KEY" => c.QDRANT_API_KEY
  | "COHERE_API_KEY" => c.COHERE_API_KEY
  | _ => none

/-- Python `repr` of a string (single-quoted). -/
def pyStrRepr (s : String) : String := "\x27" ++ s ++ "\x27"

/-- Python `repr` of a list of strings, as interpolated by
`f"Missing required environment variables: \x7bmissing_vars\x7d"`. -/
def pyListRepr (l : List String) : String :=
  "[" ++ String.intercalate ", " (l.map pyStrRepr) ++ "]"

/-- `Config.validate`.  Raising `ValueError(msg)` is modelled as
`Except.error msg`.  `getattr(cls, \x27GEMINI_API_KEY\x27, None)` is always
`None` because the class body defines no such attribute, so the LLM-key check
reduces to the OpenRouter key alone. -/
def Config.validate (c : Config) : Except String Unit :=
  if !(truthyStr c.OPENROUTER_API_KEY || truthyStr (none : Option String)) then
    Except.error "Either OPENROUTER_API_KEY or GEMINI_API_KEY must be set"
  else if !truthyStr c.COHERE_API_KEY then
    Except.error "COHERE_API_KEY must be set for embeddings"
  else
    let missing_vars := Config.requiredVars.filter (fun v => !truthyStr (c.getVar v))
    if !missing_vars.isEmpty then
      Except.error ("Missing required environment variables: " ++ pyListRepr missing_vars)
    else
      Except.ok ()

/-- The four mandatory keys of claim C7 and the sublist of them that is unset
(or empty) in a given configuration. -/
def mandatoryVars : List String :=
  ["OPENROUTER_API_KEY", "QDRANT_URL", "QDRANT_API_KEY", "COHERE_API_KEY"]

/-- The mandatory variables missing from `c`. -/
def missingMandatory (c : Config) : List String :=
  mandatoryVars.filter (fun v => !truthyStr (c.getVar v))

/-- `needle` is a prefix of `haystack` (over characters). -/
def charsPrefixOf : List Char → List Char → Bool
  | [], _ => true
  | _ :: _, [] => false
  | a :: as, b :: bs => (a == b) && charsPrefixOf as bs

/-- `needle` occurs inside `haystack` (over characters). -/
def charsContains : List Char → List Char → Bool
  | [], needle => needle.isEmpty
  | h :: hs, needle => charsPrefixOf needle (h :: hs) || charsContains hs needle

/-- `v` occurs (as a substring) in the message `msg`. -/
def namesVar (msg v : String) : Prop := charsContains msg.data v.data = true

instance (msg v : String) : Decidable (namesVar msg v) := by
  unfold namesVar; infer_instance

/-- An invocation of the retrieval collaborator, as issued by
`process_request`: either `search(query=…, filters=…, top_k=…)` or — in the
fall-through default branch — `search(query=…, top_k=…)` with no filters
argument at all. -/
inductive RetrievalCall where
  | searchWithFilters (query : String) (filters : Dict) (top_k : Nat)
  | searchNoFilters (query : String) (top_k : Nat)
deriving DecidableEq, Repr

/-- The resolved conversation id:
`request.conversation_id or f"conv_\x7bint(datetime.now().timestamp())\x7d"`,
with `now` the integer Unix timestamp. -/
def conversationIdOf (now : Nat) (req : AgentRequest) : String :=
  match req.conversation_id with
  | some s => if s == "" then "conv_" ++ toString now else s
  | none => "conv_" ++ toString now

/-- The merged filters of the chapter-specific branch:
`filters = \x7b"chapter": request.chapter_filter\x7d` followed by
`filters.update(request.filters)` when `request.filters` is truthy. -/
def chapterFilters (cf : String) (rf : Option Dict) : Dict :=
  let base : Dict := [("chapter", cf)]
  if truthyDict rf then dictUpdate base (rf.getD []) else base

/-- The retrieval invocation `process_request` issues for a request, `none`
when the user-context branch skips retrieval.  Mirrors the
`if / elif / elif / else` chain on `request.query_type`. -/
def retrievalCallOf (req : AgentRequest) : Option RetrievalCall :=
  if req.query_type = QueryType.GENERAL then
    some (RetrievalCall.searchWithFilters req.query (req.filters.getD []) req.top_k)
  else if req.query_type = QueryType.CHAPTER_SPECIFIC ∧ truthyStr req.chapter_filter then
    some (RetrievalCall.searchWithFilters req.query
      (chapterFilters (req.chapter_filter.getD "") req.filters) req.top_k)
  else if req.query_type = QueryType.USER_CONTEXT then
    none
  else
    some (RetrievalCall.searchNoFilters req.query req.top_k)

/-- The raw records the pipeline works on: the collaborator's answer to the
issued call, or `[]` when no call is made. -/
def retrievedDataOf (retrieve : RetrievalCall → List RawChunk)
    (req : AgentRequest) : List RawChunk :=
  match retrievalCallOf req with
  | some c => retrieve c
  | none => []

/-- The `RetrievedChunk(...)` constructor call of the conversion loop. -/
def toRetrievedChunk (item : RawChunk) : RetrievedChunk :=
  { id := item.id
    content := item.content
    source_url := item.source_url
    chapter := item.chapter
    «section» := item.«section»
    similarity_score := item.similarity_score
    confidence_score := item.confidence_score
    retrieval_timestamp := item.retrieval_timestamp
    metadata := item.metadata }

/-- `retrieved_chunks` after the conversion loop. -/
def chunksOf (retrieve : RetrievalCall → List RawChunk)
    (req : AgentRequest) : List RetrievedChunk :=
  (retrievedDataOf retrieve req).map toRetrievedChunk

/-- `source_attribution` after the conversion loop: each item's `source_url`
added to a set (insertion-ordered, duplicate-free). -/
def sourceAttributionOf (retrieve : RetrievalCall → List RawChunk)
    (req : AgentRequest) : List String :=
  (retrievedDataOf retrieve req).foldl (fun s item => pySetAdd s item.source_url) []

/-- The `context_text` assembly: joined chunk blocks when chunks exist, the
user-context line in user-context mode with truthy `user_context`, else empty. -/
def contextTextOf (retrieve : RetrievalCall → List RawChunk)
    (req : AgentRequest) : String :=
  let retrieved_chunks := chunksOf retrieve req
  if !retrieved_chunks.isEmpty then
    String.intercalate "\n\n"
      (retrieved_chunks.map
        (fun chunk => "Source: " ++ chunk.source_url ++ "\nContent: " ++ chunk.content))
  else if req.query_type = QueryType.USER_CONTEXT ∧ truthyStr req.user_context then
    "User Context: " ++ (req.user_context.getD "")
  else
    ""

/-- The grounded prompt template used when `context_text` is truthy. -/
def promptWithContext (context_text query : String) : String :=
  "\n                You are an AI assistant for the AI Robotics textbook. Answer the user\x27s question based on the provided context.\n\n                Context:\n                "
    ++ context_text
    ++ "\n\n                Question: " ++ query
    ++ "\n\n                Instructions:\n                - Answer based on the context provided\n                - If the context doesn\x27t contain the answer, say so\n                - Provide source attribution when possible\n                - Be concise and accurate\n                - Never hallucinate information not in the context\n                "

/-- The fallback prompt used when no context is available. -/
def promptNoContext (query : String) : String :=
  "\n                You are an AI assistant for the AI Robotics textbook.\n                The system couldn\x27t find relevant context for the question: "
    ++ query
    ++ "\n                Provide a general response based on your knowledge while noting that specific textbook content wasn\x27t available.\n                "

/-- The prompt handed to the completion collaborator. -/
def promptOf (retrieve : RetrievalCall → List RawChunk)
    (req : AgentRequest) : String :=
  let context_text := contextTextOf retrieve req
  if !(context_text == "") then promptWithContext context_text req.query
  else promptNoContext req.query

/-- The confidence computation: mean similarity capped at `1.0` over the
retrieved chunks, or the fixed floor `0.3` when none were retrieved. -/
def confidenceOf (retrieve : RetrievalCall → List RawChunk)
    (req : AgentRequest) : ℚ :=
  let retrieved_chunks := chunksOf retrieve req
  if !retrieved_chunks.isEmpty then
    min 1 ((retrieved_chunks.map RetrievedChunk.similarity_score).sum
      / (retrieved_chunks.length : ℚ))
  else
    3 / 10

/-- What `process_request` computes, with its observable effects recorded: the
returned response, the retrieval invocation (if any), the assembled context
text and prompt, and the validator's verdict (used only for logging). -/
structure ProcessResult where
  response : AgentResponse
  retrievalCall : Option RetrievalCall
  contextText : String
  prompt : String
  validation : ValidationResult
deriving Repr

/-- `process_request`.  The collaborators are parameters: `retrieve` answers
retrieval invocations, `llm` maps the assembled prompt to the completion text
(system instruction, token cap and temperature are fixed by configuration and
do not depend on the request), `validator` is the response validator, and
`now` is the integer Unix timestamp used for synthesized conversation ids. -/
def processRequest (retrieve : RetrievalCall → List RawChunk)
    (llm : String → String) (validator : AgentResponse → ValidationResult)
    (now : Nat) (req : AgentRequest) : ProcessResult :=
  let conversation_id := conversationIdOf now req
  let retrieved_chunks := chunksOf retrieve req
  let source_attribution := sourceAttributionOf retrieve req
  let context_text := contextTextOf retrieve req
  let prompt := promptOf retrieve req
  let ai_response := llm prompt
  let confidence_score := confidenceOf retrieve req
  let agent_response : AgentResponse :=
    { response := ai_response
      query := req.query
      retrieved_chunks := retrieved_chunks
      source_attribution := source_attribution
      confidence_score := confidence_score
      query_type := req.query_type
      conversation_id := conversation_id
      has_sufficient_context :=
        decide (0 < retrieved_chunks.length) || decide (req.query_type = QueryType.USER_CONTEXT)
      hallucination_prevention_applied := true }
  let validation_result := validator agent_response
  { response := agent_response
    retrievalCall := retrievalCallOf req
    contextText := context_text
    prompt := prompt
    validation := validation_result }

/-! Concrete collaborators and requests used to exercise the pipeline. -/

/-- A retrieval collaborator that finds nothing. -/
def noRetrieve : RetrievalCall → List RawChunk := fun _ => []

/-- A completion collaborator with a fixed answer. -/
def constLLM : String → String := fun _ => "ok"

/-- A validator that accepts everything. -/
def okValidator : AgentResponse → ValidationResult :=
  fun _ => { is_valid := true, issues := [] }

/-- A validator that rejects everything. -/
def failValidator : AgentResponse → ValidationResult :=
  fun _ => { is_valid := false, issues := ["flagged"] }

/-- A plain general request. -/
def baseRequest : AgentRequest :=
  { query := "What is this book about?"
    query_type := QueryType.GENERAL
    chapter_filter := none
    filters := none
    top_k := 5
    user_context := none
    conversation_id := none }

/-- A sample raw chunk (integral scores so that concrete evaluation stays
within kernel-reducible rational arithmetic). -/
def chunkA : RawChunk :=
  { id := "c1", content := "alpha", source_url := "https://ex.org/ch1"
    chapter := some "1", «section» := none, similarity_score := 1
    confidence_score := 1, retrieval_timestamp := 0, metadata := [] }

/-- A second sample raw chunk with the same source. -/
def chunkB : RawChunk :=
  { id := "c2", content := "beta", source_url := "https://ex.org/ch1"
    chapter := some "1", «section» := none, similarity_score := 0
    confidence_score := 0, retrieval_timestamp := 0, metadata := [] }

/-- A retrieval collaborator returning the two sample chunks. -/
def twoRetrieve : RetrievalCall → List RawChunk := fun _ => [chunkA, chunkB]

/-- A chapter-specific request whose explicit filters override the chapter key. -/
def chapterRequest : AgentRequest :=
  { baseRequest with
    query_type := QueryType.CHAPTER_SPECIFIC
    chapter_filter := some "2"
    filters := some [("chapter", "3"), ("lang", "en")] }

/-- A chapter-specific request with an absent chapter filter. -/
def chapterRequestNoFilter : AgentRequest :=
  { baseRequest with
    query_type := QueryType.CHAPTER_SPECIFIC
    chapter_filter := none
    filters := some [("lang", "en")] }

/-- The user-context request of the spec's scenario. -/
def userContextRequest : AgentRequest :=
  { baseRequest with
    query_type := QueryType.USER_CONTEXT
    user_context := some "chapter 1 notes" }

/-- A user-context request whose `user_context` is the empty string. -/
def userContextEmptyRequest : AgentRequest :=
  { baseRequest with
    query_type := QueryType.USER_CONTEXT
    user_context := some "" }

/-- A request carrying an explicit conversation id. -/
def namedConvRequest : AgentRequest :=
  { baseRequest with conversation_id := some "sess-1" }

/-- A request whose conversation id is the empty string. -/
def emptyConvRequest : AgentRequest :=
  { baseRequest with conversation_id := some "" }

/-- A configuration with all mandatory keys set. -/
def confAllSet : Config :=
  { OPENROUTER_API_KEY := some "k", QDRANT_URL := some "u"
    QDRANT_API_KEY := some "q", COHERE_API_KEY := some "c" }

/-- A configuration missing only the vector-store URL. -/
def confMissingQdrantUrl : Config :=
  { OPENROUTER_API_KEY := some "k", QDRANT_URL := none
    QDRANT_API_KEY := some "q", COHERE_API_KEY := some "c" }

/-- A configuration with every mandatory key unset. -/
def confAllUnset : Config :=
  { OPENROUTER_API_KEY := none, QDRANT_URL := none
    QDRANT_API_KEY := none, COHERE_API_KEY := none }

/-- A sample session store with two sessions. -/
def sampleSessions : Sessions :=
  [("a", { id := "a", created_at := 0, history := [] }),
   ("b", { id := "b", created_at := 1, history := [] })]

/-! Helper lemmas about the Python-dict and Python-set models. -/

theorem dictHasKey_iff_mem (d : Dict) (k : String) :
    dictHasKey d k = true ↔ k ∈ d.map Prod.fst := by
  induction d with
  | nil => simp [dictHasKey]
  | cons p d ih =>
    simp only [dictHasKey, Bool.or_eq_true, decide_eq_true_eq, List.map_cons,
      List.mem_cons, ih]
    constructor
    · rintro (h | h)
      exacts [Or.inl h.symm, Or.inr h]
    · rintro (h | h)
      exacts [Or.inl h.symm, Or.inr h]

theorem dictGet_map_replace (d : Dict) (k v : String) (h : dictHasKey d k = true) :
    dictGet (d.map (fun p => if p.1 = k then (p.1, v) else p)) k = some v := by
  induction d with
  | nil => simp only [dictHasKey] at h; cases h
  | cons p d ih =>
    by_cases hp : p.1 = k
    · simp [dictGet, hp]
    · have h' : dictHasKey d k = true := by
        simp only [dictHasKey, Bool.or_eq_true, decide_eq_true_eq] at h
        exact h.resolve_left hp
      simp [dictGet, hp, ih h']

theorem dictGet_map_replace_ne (d : Dict) (k v k' : String) (h : k' ≠ k) :
    dictGet (d.map (fun p => if p.1 = k then (p.1, v) else p)) k' = dictGet d k' := by
  have hkk : ¬ k = k' := fun hc => h hc.symm
  induction d with
  | nil => simp [dictGet]
  | cons p d ih =>
    by_cases hp : p.1 = k
    · simp [dictGet, hp, hkk, ih]
    · simp [dictGet, hp, ih]

theorem dictGet_append_single (d : Dict) (k v : String) (h : dictGet d k = none) :
    dictGet (d ++ [(k, v)]) k = some v := by
  induction d with
  | nil => simp [dictGet]
  | cons p d ih =>
    by_cases hp : p.1 = k
    · simp [dictGet, hp] at h
    · simp only [dictGet, hp] at h
      simpa [dictGet, hp] using ih h

theorem dictGet_append_single_ne (d : Dict) (k v k' : String) (h : k' ≠ k) :
    dictGet (d ++ [(k, v)]) k' = dictGet d k' := by
  induction d with
  | nil => simp [dictGet, show ¬ k = k' from fun hc => h hc.symm]
  | cons p d ih =>
    by_cases hp : p.1 = k'
    · simp [dictGet, hp]
    · simpa [dictGet, hp] using ih

theorem dictGet_none_of_hasKey_false (d : Dict) (k : String)
    (h : dictHasKey d k = false) : dictGet d k = none := by
  induction d with
  | nil => rfl
  | cons p d ih =>
    simp only [dictHasKey, Bool.or_eq_false_iff, decide_eq_false_iff_not] at h
    simp [dictGet, h.1, ih h.2]

theorem dictGet_dictInsert_self (d : Dict) (k v : String) :
    dictGet (dictInsert d k v) k = some v := by
  unfold dictInsert
  by_cases h : dictHasKey d k = true
  · rw [if_pos h]; exact dictGet_map_replace d k v h
  · rw [if_neg h]
    exact dictGet_append_single d k v
      (dictGet_none_of_hasKey_false d k (Bool.eq_false_iff.mpr h))

theorem dictGet_dictInsert_ne (d : Dict) (k v k' : String) (h : k' ≠ k) :
    dictGet (dictInsert d k v) k' = dictGet d k' := by
  unfold dictInsert
  by_cases hd : dictHasKey d k = true
  · rw [if_pos hd]; exact dictGet_map_replace_ne d k v k' h
  · rw [if_neg hd]; exact dictGet_append_single_ne d k v k' h

theorem dictGet_dictUpdate (base d : Dict) (k : String)
    (hnd : (d.map Prod.fst).Nodup) :
    dictGet (dictUpdate base d) k =
      if dictHasKey d k = true then dictGet d k else dictGet base k := by
  induction d generalizing base with
  | nil => simp [dictUpdate, dictHasKey]
  | cons p d ih =>
    have hnd' : (d.map Prod.fst).Nodup := (List.nodup_cons.mp (by simpa using hnd)).2
    have hpd : p.1 ∉ d.map Prod.fst := (List.nodup_cons.mp (by simpa using hnd)).1
    have hstep : dictUpdate base (p :: d) = dictUpdate (dictInsert base p.1 p.2) d := rfl
    rw [hstep, ih _ hnd']
    by_cases hk : p.1 = k
    · subst hk
      have hdk : dictHasKey d p.1 = false := by
        rcases hb : dictHasKey d p.1 with _ | _
        · rfl
        · exact absurd ((dictHasKey_iff_mem d p.1).mp hb) hpd
      simp [hdk, dictHasKey, dictGet, dictGet_dictInsert_self]
    · have h1 : dictHasKey (p :: d) k = dictHasKey d k := by
        simp [dictHasKey, hk]
      have h2 : dictGet (p :: d) k = dictGet d k := by
        simp [dictGet, hk]
      rw [h1, h2, dictGet_dictInsert_ne base p.1 p.2 k (fun hc => hk hc.symm)]

theorem pySetAdd_toFinset (s : List String) (x : String) :
    (pySetAdd s x).toFinset = insert x s.toFinset := by
  unfold pySetAdd
  by_cases h : x ∈ s
  · rw [if_pos h, (Finset.insert_eq_self).mpr (List.mem_toFinset.mpr h)]
  · rw [if_neg h, List.toFinset_append]
    ext y
    simp [or_comm]

theorem pySetAdd_nodup {s : List String} (h : s.Nodup) (x : String) :
    (pySetAdd s x).Nodup := by
  unfold pySetAdd
  by_cases hx : x ∈ s
  · rwa [if_pos hx]
  · rw [if_neg hx, List.nodup_append]
    refine ⟨h, List.nodup_singleton x, ?_⟩
    intro a ha hax
    rw [List.mem_singleton] at hax
    exact hx (hax ▸ ha)

theorem foldl_pySetAdd_toFinset (l acc : List String) :
    (l.foldl pySetAdd acc).toFinset = acc.toFinset ∪ l.toFinset := by
  induction l generalizing acc with
  | nil => simp
  | cons x l ih =>
    rw [List.foldl_cons, ih, pySetAdd_toFinset]
    ext y
    simp
    try tauto

theorem foldl_pySetAdd_nodup (l : List String) (acc : List String) (h : acc.Nodup) :
    (l.foldl pySetAdd acc).Nodup := by
  induction l generalizing acc with
  | nil => exact h
  | cons x l ih => exact ih _ (pySetAdd_nodup h x)

/-! Helper lemmas about the session map. -/

theorem sessionsHasKey_iff (s : Sessions) (sid : String) :
    sessionsHasKey s sid = true ↔ sid ∈ s.map Prod.fst := by
  simp only [sessionsHasKey, List.any_eq_true, beq_iff_eq, List.mem_map]

theorem sessionsGet_filter_self (s : Sessions) (sid : String) :
    sessionsGet (s.filter (fun p => !(p.1 == sid))) sid = none := by
  induction s with
  | nil => rfl
  | cons p s ih =>
    by_cases hp : p.1 = sid
    · simp [List.filter_cons, hp, ih]
    · simp [List.filter_cons, hp, sessionsGet, ih]

theorem sessionsGet_filter_ne (s : Sessions) (sid k : String) (h : k ≠ sid) :
    sessionsGet (s.filter (fun p => !(p.1 == sid))) k = sessionsGet s k := by
  have hsk : ¬ sid = k := fun hc => h hc.symm
  induction s with
  | nil => rfl
  | cons p s ih =>
    by_cases hp : p.1 = sid
    · simp [List.filter_cons, hp, sessionsGet, hsk, ih]
    · by_cases hpk : p.1 = k
      · simp [List.filter_cons, hp, sessionsGet, hpk, h]
      · simp [List.filter_cons, hp, sessionsGet, hpk, ih]

theorem sessions_filter_length (s : Sessions) (sid : String)
    (hnd : (s.map Prod.fst).Nodup) (hmem : sid ∈ s.map Prod.fst) :
    (s.filter (fun p => !(p.1 == sid))).length + 1 = s.length := by
  induction s with
  | nil => cases hmem
  | cons p s ih =>
    rw [List.map_cons] at hnd hmem
    have h1 : p.1 ∉ s.map Prod.fst := (List.nodup_cons.mp hnd).1
    have h2 : (s.map Prod.fst).Nodup := (List.nodup_cons.mp hnd).2
    by_cases hp : p.1 = sid
    · have hall : s.filter (fun q => !(q.1 == sid)) = s := by
        rw [List.filter_eq_self]
        intro a ha
        have haa : a.1 ∈ s.map Prod.fst := List.mem_map.mpr ⟨a, ha, rfl⟩
        have hne : a.1 ≠ sid := fun hc => h1 (by rw [hp, ← hc]; exact haa)
        simpa using hne
      simp [List.filter_cons, hp, hall]
    · have hmem' : sid ∈ s.map Prod.fst := by
        rcases List.mem_cons.mp hmem with hc | hc
        · exact absurd hc.symm hp
        · exact hc
      have hkeep : List.filter (fun q => !(q.1 == sid)) (p :: s) =
          p :: List.filter (fun q => !(q.1 == sid)) s := by
        simp [List.filter_cons, hp]
      rw [hkeep]
      simp only [List.length_cons]
      have hih := ih h2 hmem'
      omega

/-! Helper lemmas about the pipeline. -/

theorem mean_similarity_bounds (l : List RetrievedChunk) (hne : l ≠ [])
    (h : ∀ ch ∈ l, 0 ≤ ch.similarity_score ∧ ch.similarity_score ≤ 1) :
    0 ≤ min 1 ((l.map RetrievedChunk.similarity_score).sum / (l.length : ℚ)) ∧
      min 1 ((l.map RetrievedChunk.similarity_score).sum / (l.length : ℚ)) ≤ 1 := by
  have hlen : (0 : ℚ) < (l.length : ℚ) := by
    exact_mod_cast List.length_pos.mpr hne
  have hsum : 0 ≤ (l.map RetrievedChunk.similarity_score).sum := by
    apply List.sum_nonneg
    intro x hx
    rcases List.mem_map.mp hx with ⟨ch, hch, rfl⟩
    exact (h ch hch).1
  constructor
  · exact le_min (by norm_num) (div_nonneg hsum hlen.le)
  · exact min_le_left _ _

theorem processRequest_response_chunks (retrieve : RetrievalCall → List RawChunk)
    (llm : String → String) (validator : AgentResponse → ValidationResult)
    (now : Nat) (req : AgentRequest) :
    (processRequest retrieve llm validator now req).response.retrieved_chunks =
      chunksOf retrieve req := rfl

theorem processRequest_response_confidence (retrieve : RetrievalCall → List RawChunk)
    (llm : String → String) (validator : AgentResponse → ValidationResult)
    (now : Nat) (req : AgentRequest) :
    (processRequest retrieve llm validator now req).response.confidence_score =
      confidenceOf retrieve req := rfl

theorem processRequest_response_attribution (retrieve : RetrievalCall → List RawChunk)
    (llm : String → String) (validator : AgentResponse → ValidationResult)
    (now : Nat) (req : AgentRequest) :
    (processRequest retrieve llm validator now req).response.source_attribution =
      sourceAttributionOf retrieve req := rfl

theorem processRequest_retrievalCall (retrieve : RetrievalCall → List RawChunk)
    (llm : String → String) (validator : AgentResponse → ValidationResult)
    (now : Nat) (req : AgentRequest) :
    (processRequest retrieve llm validator now req).retrievalCall =
      retrievalCallOf req := rfl

theorem processRequest_contextText (retrieve : RetrievalCall → List RawChunk)
    (llm : String → String) (validator : AgentResponse → ValidationResult)
    (now : Nat) (req : AgentRequest) :
    (processRequest retrieve llm validator now req).contextText =
      contextTextOf retrieve req := rfl

theorem processRequest_conversation_id (retrieve : RetrievalCall → List RawChunk)
    (llm : String → String) (validator : AgentResponse → ValidationResult)
    (now : Nat) (req : AgentRequest) :
    (processRequest retrieve llm validator now req).response.conversation_id =
      conversationIdOf now req := rfl

theorem sourceAttribution_toFinset (retrieve : RetrievalCall → List RawChunk)
    (req : AgentRequest) :
    (sourceAttributionOf retrieve req).toFinset =
      ((chunksOf retrieve req).map RetrievedChunk.source_url).toFinset := by
  unfold sourceAttributionOf chunksOf
  rw [List.map_map]
  have hcomp : RetrievedChunk.source_url ∘ toRetrievedChunk = RawChunk.source_url := rfl
  rw [hcomp, ← List.foldl_map RawChunk.source_url pySetAdd, foldl_pySetAdd_toFinset]
  simp

theorem sourceAttribution_nodup (retrieve : RetrievalCall → List RawChunk)
    (req : AgentRequest) : (sourceAttributionOf retrieve req).Nodup := by
  unfold sourceAttributionOf
  rw [← List.foldl_map RawChunk.source_url pySetAdd]
  exact foldl_pySetAdd_nodup _ _ List.nodup_nil

theorem decide_pos_length {α : Type} (l : List α) :
    decide (0 < l.length) = !l.isEmpty := by
  cases l <;> simp

/-! Helper lemmas about `Config.validate`. -/

theorem truthyStr_none : truthyStr (none : Option String) = false := rfl

theorem getVar_openrouter (c : Config) :
    c.getVar "OPENROUTER_API_KEY" = c.OPENROUTER_API_KEY := rfl

theorem getVar_qdrant_url (c : Config) :
    c.getVar "QDRANT_URL" = c.QDRANT_URL := rfl

theorem getVar_qdrant_key (c : Config) :
    c.getVar "QDRANT_API_KEY" = c.QDRANT_API_KEY := rfl

theorem getVar_cohere (c : Config) :
    c.getVar "COHERE_API_KEY" = c.COHERE_API_KEY := rfl

theorem validate_ok_iff (c : Config) :
    Config.validate c = Except.ok () ↔ missingMandatory c = [] := by
  cases ho : truthyStr c.OPENROUTER_API_KEY <;>
    cases hq : truthyStr c.QDRANT_URL <;>
      cases hk : truthyStr c.QDRANT_API_KEY <;>
        cases hc : truthyStr c.COHERE_API_KEY <;>
          simp [Config.validate, missingMandatory, mandatoryVars, Config.requiredVars,
            getVar_openrouter c, getVar_qdrant_url c, getVar_qdrant_key c, getVar_cohere c,
            truthyStr_none, ho, hq, hk, hc, List.filter, List.isEmpty_iff]

theorem validate_error_names (c : Config) (msg : String)
    (h : Config.validate c = Except.error msg) :
    ∃ v ∈ missingMandatory c, namesVar msg v := by
  unfold Config.validate at h
  simp only [truthyStr_none, Bool.or_false] at h
  cases ho : truthyStr c.OPENROUTER_API_KEY <;> rw [ho] at h
  · simp at h
    subst h
    refine ⟨"OPENROUTER_API_KEY", ?_, by decide⟩
    apply List.mem_filter.mpr
    refine ⟨by simp [mandatoryVars], ?_⟩
    rw [getVar_openrouter c, ho]
    rfl
  · cases hc : truthyStr c.COHERE_API_KEY <;> rw [hc] at h
    · simp at h
      subst h
      refine ⟨"COHERE_API_KEY", ?_, by decide⟩
      apply List.mem_filter.mpr
      refine ⟨by simp [mandatoryVars], ?_⟩
      rw [getVar_cohere c, hc]
      rfl
    · cases hq : truthyStr c.QDRANT_URL <;>
        cases hk : truthyStr c.QDRANT_API_KEY <;>
          simp [Config.requiredVars, List.filter_cons, getVar_openrouter c,
            getVar_qdrant_url c, getVar_qdrant_key c, ho, hq, hk,
            pyListRepr, pyStrRepr] at h
      · subst h
        refine ⟨"QDRANT_URL", ?_, by decide⟩
        apply List.mem_filter.mpr
        refine ⟨by simp [mandatoryVars], ?_⟩
        rw [getVar_qdrant_url c, hq]
        rfl
      · subst h
        refine ⟨"QDRANT_URL", ?_, by decide⟩
        apply List.mem_filter.mpr
        refine ⟨by simp [mandatoryVars], ?_⟩
        rw [getVar_qdrant_url c, hq]
        rfl
      · subst h
        refine ⟨"QDRANT_API_KEY", ?_, by decide⟩
        apply List.mem_filter.mpr
        refine ⟨by simp [mandatoryVars], ?_⟩
        rw [getVar_qdrant_key c, hk]
        rfl

/-! The claims. -/

/-- Claim C1: for a CHAPTER_SPECIFIC request whose chapter filter is set
(truthy), `process_request` invokes retrieval with the mapping obtained from
`\x7bchapter: chapter_filter\x7d` updated by `request.filters` last-write-wins;
the effective mapping sends `chapter` to `chapter_filter` unless
`request.filters` itself carries a `chapter` key, whose value then wins. -/
theorem C1_chapter_filter_merge (retrieve : RetrievalCall → List RawChunk)
    (llm : String → String) (validator : AgentResponse → ValidationResult)
    (now : Nat) (req : AgentRequest) (cf : String)
    (hqt : req.query_type = QueryType.CHAPTER_SPECIFIC)
    (hcf : req.chapter_filter = some cf) (hne : cf ≠ "")
    (hnd : ∀ d, req.filters = some d → (d.map Prod.fst).Nodup) :
    ((processRequest retrieve llm validator now req).retrievalCall =
      some (RetrievalCall.searchWithFilters req.query
        (chapterFilters cf req.filters) req.top_k)) ∧
    chapterFilters cf req.filters =
      dictUpdate [("chapter", cf)] (req.filters.getD []) ∧
    ((∀ d, req.filters = some d → dictHasKey d "chapter" = false) →
      dictGet (chapterFilters cf req.filters) "chapter" = some cf) ∧
    (∀ d, req.filters = some d → dictHasKey d "chapter" = true →
      dictGet (chapterFilters cf req.filters) "chapter" = dictGet d "chapter") := by
  refine ⟨?_, ?_, ?_, ?_⟩
  · rw [processRequest_retrievalCall]
    unfold retrievalCallOf
    rw [if_neg (by rw [hqt]; intro hcontra; cases hcontra)]
    rw [if_pos ⟨hqt, by rw [hcf]; simpa [truthyStr] using hne⟩]
    rw [hcf]
    rfl
  · unfold chapterFilters
    rcases hf : req.filters with _ | d
    · simp [truthyDict, dictUpdate]
    · rcases d with _ | ⟨p, d⟩
      · simp [truthyDict, dictUpdate]
      · simp [truthyDict]
  · intro hno
    unfold chapterFilters
    rcases hf : req.filters with _ | d
    · simp [truthyDict, dictGet]
    · have hnod := hnd d hf
      have hnok := hno d hf
      rcases hd : d with _ | ⟨p, d'⟩
      · simp [truthyDict, dictGet]
      · subst hd
        rw [if_pos (by simp [truthyDict])]
        simp only [Option.getD_some]
        rw [dictGet_dictUpdate _ _ _ hnod, hnok]
        simp [dictGet]
  · intro d hd hkey
    unfold chapterFilters
    rw [hd]
    have hdne : d ≠ [] := by
      intro hnil
      rw [hnil] at hkey
      cases hkey
    rw [if_pos (by simpa [truthyDict, List.isEmpty_iff] using hdne)]
    simp only [Option.getD_some]
    rw [dictGet_dictUpdate _ _ _ (hnd d hd), if_pos hkey]

/-- Claim C2: the confidence score is the mean of the retrieved chunks'
similarity scores capped at 1.0 when chunks exist, exactly 0.3 when none
were retrieved, and lies in [0,1] whenever every similarity score does. -/
theorem C2_confidence_score (retrieve : RetrievalCall → List RawChunk)
    (llm : String → String) (validator : AgentResponse → ValidationResult)
    (now : Nat) (req : AgentRequest) :
    ((processRequest retrieve llm validator now req).response.retrieved_chunks ≠ [] →
      (processRequest retrieve llm validator now req).response.confidence_score =
        min 1
          (((processRequest retrieve llm validator now req).response.retrieved_chunks.map
              RetrievedChunk.similarity_score).sum /
            ((processRequest retrieve llm validator now req).response.retrieved_chunks.length : ℚ))) ∧
    ((processRequest retrieve llm validator now req).response.retrieved_chunks = [] →
      (processRequest retrieve llm validator now req).response.confidence_score = 3 / 10) ∧
    ((∀ ch ∈ (processRequest retrieve llm validator now req).response.retrieved_chunks,
        0 ≤ ch.similarity_score ∧ ch.similarity_score ≤ 1) →
      0 ≤ (processRequest retrieve llm validator now req).response.confidence_score ∧
        (processRequest retrieve llm validator now req).response.confidence_score ≤ 1) := by
  rw [processRequest_response_confidence, processRequest_response_chunks]
  refine ⟨?_, ?_, ?_⟩
  · intro hne
    unfold confidenceOf
    rcases hl : chunksOf retrieve req with _ | ⟨ch, l⟩
    · exact absurd hl hne
    · simp
  · intro h0
    unfold confidenceOf
    rw [h0]
    simp
  · intro hb
    unfold confidenceOf
    rcases hl : chunksOf retrieve req with _ | ⟨ch, l⟩
    · norm_num
    · rw [hl] at hb
      simp only [List.isEmpty_cons, Bool.not_false, if_true]
      exact mean_similarity_bounds (ch :: l) (List.cons_ne_nil ch l) hb

/-- Claim C3: `source_attribution` equals, as a set, the set of distinct
`source_url` values of the retrieved chunks; its size is at most the number
of chunks and equals the number of distinct urls; it is empty when no chunks
were retrieved. -/
theorem C3_source_attribution (retrieve : RetrievalCall → List RawChunk)
    (llm : String → String) (validator : AgentResponse → ValidationResult)
    (now : Nat) (req : AgentRequest) :
    ((processRequest retrieve llm validator now req).response.source_attribution.toFinset =
      ((processRequest retrieve llm validator now req).response.retrieved_chunks.map
        RetrievedChunk.source_url).toFinset) ∧
    ((processRequest retrieve llm validator now req).response.source_attribution.length ≤
      (processRequest retrieve llm validator now req).response.retrieved_chunks.length) ∧
    ((processRequest retrieve llm validator now req).response.source_attribution.length =
      ((processRequest retrieve llm validator now req).response.retrieved_chunks.map
        RetrievedChunk.source_url).toFinset.card) ∧
    ((processRequest retrieve llm validator now req).response.retrieved_chunks = [] →
      (processRequest retrieve llm validator now req).response.source_attribution = []) := by
  rw [processRequest_response_attribution, processRequest_response_chunks]
  have hts := sourceAttribution_toFinset retrieve req
  have hnd := sourceAttribution_nodup retrieve req
  have hlen : (sourceAttributionOf retrieve req).length =
      ((chunksOf retrieve req).map RetrievedChunk.source_url).toFinset.card := by
    rw [← hts, List.toFinset_card_of_nodup hnd]
  refine ⟨hts, ?_, hlen, ?_⟩
  · calc (sourceAttributionOf retrieve req).length
        = ((chunksOf retrieve req).map RetrievedChunk.source_url).toFinset.card := hlen
      _ ≤ ((chunksOf retrieve req).map RetrievedChunk.source_url).length :=
        List.toFinset_card_le _
      _ = (chunksOf retrieve req).length := List.length_map _ _
  · intro h0
    unfold sourceAttributionOf
    have hdata : retrievedDataOf retrieve req = [] := by
      unfold chunksOf at h0
      exact List.map_eq_nil_iff.mp h0
    rw [hdata]
    rfl

/-- Claim C4 (amended): a USER_CONTEXT request never invokes the retrieval
collaborator, its response has no retrieved chunks, and when `user_context`
is supplied and non-empty the context text is `"User Context: "` followed by
it.  (With `user_context` supplied but empty the context text is empty — see
the counterexample.) -/
theorem C4_user_context (retrieve : RetrievalCall → List RawChunk)
    (llm : String → String) (validator : AgentResponse → ValidationResult)
    (now : Nat) (req : AgentRequest)
    (hqt : req.query_type = QueryType.USER_CONTEXT) :
    ((processRequest retrieve llm validator now req).retrievalCall = none) ∧
    ((processRequest retrieve llm validator now req).response.retrieved_chunks = []) ∧
    (∀ uc, req.user_context = some uc → uc ≠ "" →
      (processRequest retrieve llm validator now req).contextText =
        "User Context: " ++ uc) := by
  have hcall : retrievalCallOf req = none := by
    unfold retrievalCallOf
    rw [if_neg (by rw [hqt]; intro hcontra; cases hcontra)]
    rw [if_neg (by rw [hqt]; rintro ⟨hcontra, -⟩; cases hcontra)]
    rw [if_pos hqt]
  have hchunks : chunksOf retrieve req = [] := by
    unfold chunksOf retrievedDataOf
    rw [hcall]
    rfl
  refine ⟨?_, ?_, ?_⟩
  · rw [processRequest_retrievalCall]
    exact hcall
  · rw [processRequest_response_chunks]
    exact hchunks
  · intro uc huc hne
    rw [processRequest_contextText]
    unfold contextTextOf
    rw [hchunks]
    rw [if_neg (by simp)]
    rw [if_pos ⟨hqt, by rw [huc]; simpa [truthyStr] using hne⟩]
    rw [huc]
    rfl

/-- Claim C5: `has_sufficient_context` is exactly (chunks non-empty) OR
(query type is USER_CONTEXT), and hallucination prevention is always
reported as applied. -/
theorem C5_sufficient_context (retrieve : RetrievalCall → List RawChunk)
    (llm : String → String) (validator : AgentResponse → ValidationResult)
    (now : Nat) (req : AgentRequest) :
    ((processRequest retrieve llm validator now req).response.has_sufficient_context =
      (!(processRequest retrieve llm validator now req).response.retrieved_chunks.isEmpty
        || decide (req.query_type = QueryType.USER_CONTEXT))) ∧
    (processRequest retrieve llm validator now req).response.hallucination_prevention_applied =
      true := by
  constructor
  · have hdef : (processRequest retrieve llm validator now req).response.has_sufficient_context
        = (decide (0 < (chunksOf retrieve req).length)
            || decide (req.query_type = QueryType.USER_CONTEXT)) := rfl
    rw [hdef, processRequest_response_chunks, decide_pos_length]
  · rfl

/-- Claim C6: the response validator is advisory: `process_request` runs it on
the assembled response but returns that response unchanged whatever the
verdict, so any two validators yield identical returned responses. -/
theorem C6_validation_advisory (retrieve : RetrievalCall → List RawChunk)
    (llm : String → String) (now : Nat) (req : AgentRequest)
    (validator validator' : AgentResponse → ValidationResult) :
    ((processRequest retrieve llm validator now req).validation =
      validator ((processRequest retrieve llm validator now req).response)) ∧
    (processRequest retrieve llm validator now req).response =
      (processRequest retrieve llm validator' now req).response :=
  ⟨rfl, rfl⟩

/-- Claim C7 (amended): `Config.validate` raises exactly when at least one of
the four mandatory keys is unset, and the error message names at least one of
the missing variables (those of the first failing check; with several keys
missing the later ones need not be named — see the counterexample); when all
four are set it returns without raising. -/
theorem C7_validate (c : Config) :
    (Config.validate c = Except.ok () ↔ missingMandatory c = []) ∧
    (∀ msg, Config.validate c = Except.error msg →
      ∃ v ∈ missingMandatory c, namesVar msg v) :=
  ⟨validate_ok_iff c, fun msg h => validate_error_names c msg h⟩

/-- Claim C8: `clear_conversation` on an absent id returns false and leaves
the session map untouched; on a present id it returns true and removes
exactly that entry (the id becomes absent, every other id keeps its binding,
and the map shrinks by one). -/
theorem C8_clear_conversation (s : Sessions) (sid : String) :
    (sid ∉ s.map Prod.fst → clear_conversation s sid = (false, s)) ∧
    ((s.map Prod.fst).Nodup → sid ∈ s.map Prod.fst →
      (clear_conversation s sid).1 = true ∧
      sessionsGet (clear_conversation s sid).2 sid = none ∧
      (∀ k, k ≠ sid → sessionsGet (clear_conversation s sid).2 k = sessionsGet s k) ∧
      (clear_conversation s sid).2.length + 1 = s.length) := by
  constructor
  · intro habs
    unfold clear_conversation
    rw [if_neg (fun hc => habs ((sessionsHasKey_iff s sid).mp hc))]
  · intro hnd hmem
    have hkey : sessionsHasKey s sid = true := (sessionsHasKey_iff s sid).mpr hmem
    unfold clear_conversation
    rw [if_pos hkey]
    refine ⟨rfl, sessionsGet_filter_self s sid, ?_, sessions_filter_length s sid hnd hmem⟩
    intro k hk
    exact sessionsGet_filter_ne s sid k hk

/-- Claim C9 (amended): a provided non-empty conversation id is carried
through to the response unchanged; an absent or empty one is replaced by the
synthesized id `conv_<timestamp>`.  (A provided empty id is also replaced —
see the counterexample.) -/
theorem C9_conversation_id (retrieve : RetrievalCall → List RawChunk)
    (llm : String → String) (validator : AgentResponse → ValidationResult)
    (now : Nat) (req : AgentRequest) :
    (∀ s, req.conversation_id = some s → s ≠ "" →
      (processRequest retrieve llm validator now req).response.conversation_id = s) ∧
    ((req.conversation_id = none ∨ req.conversation_id = some "") →
      (processRequest retrieve llm validator now req).response.conversation_id =
        "conv_" ++ toString now) := by
  rw [processRequest_conversation_id]
  constructor
  · intro s hs hne
    unfold conversationIdOf
    rw [hs]
    simp [hne]
  · rintro (h0 | h0) <;> simp [conversationIdOf, h0]

/-- Claim C10: a CHAPTER_SPECIFIC request whose chapter filter is absent or
falsy falls through to the default branch: retrieval is invoked with no
filters argument at all, whatever `request.filters` holds. -/
theorem C10_falsy_chapter_filter (retrieve : RetrievalCall → List RawChunk)
    (llm : String → String) (validator : AgentResponse → ValidationResult)
    (now : Nat) (req : AgentRequest)
    (hqt : req.query_type = QueryType.CHAPTER_SPECIFIC)
    (hcf : req.chapter_filter = none ∨ req.chapter_filter = some "") :
    ((processRequest retrieve llm validator now req).retrievalCall =
      some (RetrievalCall.searchNoFilters req.query req.top_k)) ∧
    (∀ g : Option Dict,
      (processRequest retrieve llm validator now { req with filters := g }).retrievalCall =
        some (RetrievalCall.searchNoFilters req.query req.top_k)) := by
  have hfalsy : truthyStr req.chapter_filter = false := by
    rcases hcf with h | h <;> rw [h] <;> rfl
  have hgen : ∀ g : Option Dict,
      retrievalCallOf { req with filters := g } =
        some (RetrievalCall.searchNoFilters req.query req.top_k) := by
    intro g
    unfold retrievalCallOf
    rw [if_neg (by simp only; rw [hqt]; intro hcontra; cases hcontra)]
    rw [if_neg (by simp only; rw [hfalsy]; rintro ⟨-, hcontra⟩; cases hcontra)]
    rw [if_neg (by simp only; rw [hqt]; intro hcontra; cases hcontra)]
  constructor
  · rw [processRequest_retrievalCall]
    have hsame : retrievalCallOf req = retrievalCallOf { req with filters := req.filters } := rfl
    rw [hsame, hgen req.filters]
  · intro g
    rw [processRequest_retrievalCall]
    exact hgen g

/-! Witnesses and counterexamples at concrete inputs. -/

/-- Claim C1 exercised on a chapter request whose explicit filters carry a
`chapter` key: the merged mapping is passed to retrieval and the explicit
value wins. -/
theorem C1_witness :
    ((processRequest noRetrieve constLLM okValidator 0 chapterRequest).retrievalCall =
      some (RetrievalCall.searchWithFilters chapterRequest.query
        (chapterFilters "2" chapterRequest.filters) chapterRequest.top_k)) ∧
    dictGet (chapterFilters "2" chapterRequest.filters) "chapter" =
      dictGet [("chapter", "3"), ("lang", "en")] "chapter" :=
  ⟨(C1_chapter_filter_merge noRetrieve constLLM okValidator 0 chapterRequest "2" rfl rfl
      (by decide)
      (fun d hd => by
        have hde : d = [("chapter", "3"), ("lang", "en")] :=
          Option.some.inj (hd.symm.trans rfl)
        subst hde
        decide)).1,
   (C1_chapter_filter_merge noRetrieve constLLM okValidator 0 chapterRequest "2" rfl rfl
      (by decide)
      (fun d hd => by
        have hde : d = [("chapter", "3"), ("lang", "en")] :=
          Option.some.inj (hd.symm.trans rfl)
        subst hde
        decide)).2.2.2 [("chapter", "3"), ("lang", "en")] rfl (by decide)⟩

/-- Claim C2 exercised on a request retrieving two chunks with similarity
scores 4/5 and 3/5: the confidence score lies in [0,1]. -/
theorem C2_witness :
    0 ≤ (processRequest twoRetrieve constLLM okValidator 0 baseRequest).response.confidence_score ∧
    (processRequest twoRetrieve constLLM okValidator 0 baseRequest).response.confidence_score ≤ 1 :=
  (C2_confidence_score twoRetrieve constLLM okValidator 0 baseRequest).2.2 (by decide)

/-- Claim C3 exercised with two chunks sharing one source url, and with an
empty retrieval. -/
theorem C3_witness :
    ((processRequest twoRetrieve constLLM okValidator 0 baseRequest).response.source_attribution.length ≤
      (processRequest twoRetrieve constLLM okValidator 0 baseRequest).response.retrieved_chunks.length) ∧
    (processRequest noRetrieve constLLM okValidator 0 baseRequest).response.source_attribution = [] :=
  ⟨(C3_source_attribution twoRetrieve constLLM okValidator 0 baseRequest).2.1,
   (C3_source_attribution noRetrieve constLLM okValidator 0 baseRequest).2.2.2 rfl⟩

/-- Claim C4 as stated fails at a USER_CONTEXT request whose `user_context` is
supplied but empty: the context text is empty, not `"User Context: "`. -/
theorem C4_counterexample :
    (processRequest noRetrieve constLLM okValidator 0 userContextEmptyRequest).contextText ≠
      "User Context: " ++ "" := by
  decide

/-- Claim C4 (amended) exercised on the spec's scenario request. -/
theorem C4_witness :
    ((processRequest noRetrieve constLLM okValidator 0 userContextRequest).retrievalCall = none) ∧
    (processRequest noRetrieve constLLM okValidator 0 userContextRequest).contextText =
      "User Context: " ++ "chapter 1 notes" :=
  ⟨(C4_user_context noRetrieve constLLM okValidator 0 userContextRequest rfl).1,
   (C4_user_context noRetrieve constLLM okValidator 0 userContextRequest rfl).2.2
     "chapter 1 notes" rfl (by decide)⟩

/-- Claim C7 as stated fails when several mandatory keys are missing: the
raised message is the LLM-key one and does not name the missing
`QDRANT_URL`. -/
theorem C7_counterexample :
    Config.validate confAllUnset =
      Except.error "Either OPENROUTER_API_KEY or GEMINI_API_KEY must be set" ∧
    "QDRANT_URL" ∈ missingMandatory confAllUnset ∧
    ¬ namesVar "Either OPENROUTER_API_KEY or GEMINI_API_KEY must be set" "QDRANT_URL" :=
  ⟨rfl, by decide, by decide⟩

/-- Claim C7 (amended) exercised on a fully-set configuration and on one
missing only the vector-store URL. -/
theorem C7_witness :
    (Config.validate confAllSet = Except.ok () ↔ missingMandatory confAllSet = []) ∧
    ∃ v ∈ missingMandatory confMissingQdrantUrl,
      namesVar "Missing required environment variables: [\x27QDRANT_URL\x27]" v :=
  ⟨(C7_validate confAllSet).1,
   (C7_validate confMissingQdrantUrl).2
     "Missing required environment variables: [\x27QDRANT_URL\x27]" rfl⟩

/-- Claim C8 exercised on a two-session store: clearing an unknown id is a
no-op returning false, clearing a present id removes exactly it. -/
theorem C8_witness :
    clear_conversation sampleSessions "zz" = (false, sampleSessions) ∧
    (clear_conversation sampleSessions "a").1 = true ∧
    sessionsGet (clear_conversation sampleSessions "a").2 "a" = none ∧
    (clear_conversation sampleSessions "a").2.length + 1 = sampleSessions.length := by
  have h := (C8_clear_conversation sampleSessions "a").2 (by decide) (by decide)
  exact ⟨(C8_clear_conversation sampleSessions "zz").1 (by decide), h.1, h.2.1, h.2.2.2⟩

/-- Claim C9 as stated fails at a request whose conversation id is supplied
but empty: the response does not carry the provided `""`. -/
theorem C9_counterexample :
    (processRequest noRetrieve constLLM okValidator 0 emptyConvRequest).response.conversation_id ≠
      "" := by
  decide

/-- Claim C9 (amended) exercised on a request with id `sess-1` and on one
with no id at time 42. -/
theorem C9_witness :
    ((processRequest noRetrieve constLLM okValidator 0 namedConvRequest).response.conversation_id =
      "sess-1") ∧
    (processRequest noRetrieve constLLM okValidator 42 baseRequest).response.conversation_id =
      "conv_" ++ toString 42 :=
  ⟨(C9_conversation_id noRetrieve constLLM okValidator 0 namedConvRequest).1 "sess-1" rfl
     (by decide),
   (C9_conversation_id noRetrieve constLLM okValidator 42 baseRequest).2 (Or.inl rfl)⟩

/-- Claim C10 exercised on a chapter request with no chapter filter but with
explicit filters: the default no-filters search is issued. -/
theorem C10_witness :
    (processRequest noRetrieve constLLM okValidator 0 chapterRequestNoFilter).retrievalCall =
      some (RetrievalCall.searchNoFilters chapterRequestNoFilter.query
        chapterRequestNoFilter.top_k) :=
  (C10_falsy_chapter_filter noRetrieve constLLM okValidator 0 chapterRequestNoFilter rfl
    (Or.inl rfl)).1

end RagAgent
